import Mathlib

/-!
Verification of the auth-flow controller of the YouTube-Backend repository
(src/controllers/user.controller.js), shallowly embedded in Lean 4.

The credential store (the mongoose `User` collection) is a list of stored
user documents; collaborator calls (the token service `jwt`, the media host
`uploadOnCloudinary`) are passed in as function-valued or result-valued
arguments; thrown JavaScript exceptions are `Except` errors.  Endpoint
handlers become pure functions from the request and the database state to a
result paired with the new database state.
-/

namespace YTB

/-- The structured error thrown throughout the controller
(`new ApiError(statusCode, message)`). -/
structure ApiError where
  statusCode : Nat
  message : String
deriving Repr, DecidableEq

/-- A thrown JavaScript value: either a controller `ApiError` or a plain
runtime error (a `jwt` verification error, an unexpected internal error, or
a `TypeError` raised by property access on `undefined`). -/
inductive JsError where
  | api (e : ApiError)
  | raw (message : String)
  | typeError (note : String)
deriving Repr, DecidableEq

/-- `error?.message` as read by the catch blocks of the controller. -/
def JsError.message : JsError → String
  | .api e => e.message
  | .raw m => m
  | .typeError n => n

/-- A persisted user document of the credential store.  `password` is the
stored (hashed) credential; `refreshToken` is the nullable last-issued
refresh token. -/
structure StoredUser where
  id : Nat
  username : String
  email : String
  fullname : String
  password : String
  refreshToken : Option String
  avatar : String
  coverImage : String
deriving Repr, DecidableEq

/-- The credential store: the collection of user documents. -/
abbrev DB := List StoredUser

/-- `User.findById(id)`. -/
def findById (db : DB) (id : Nat) : Option StoredUser :=
  db.find? (fun u => u.id = id)

/-- `User.findByIdAndUpdate(id, { $set: { refreshToken: tok } })` — replaces
the stored refresh token of the matching document, leaving the rest of the
store unchanged. -/
def setRefreshToken (db : DB) (id : Nat) (tok : Option String) : DB :=
  List.map (fun u => if u.id = id then { u with refreshToken := tok } else u) db

/-- JavaScript `a || b` on two possibly-absent strings: an absent or empty
string is falsy and falls through to the second operand. -/
def jsOrStr (a b : Option String) : Option String :=
  match a with
  | some s => if s = "" then b else some s
  | none => b

/-- JavaScript truthiness of a possibly-absent string (`!x` is the
negation). -/
def jsTruthy : Option String → Bool
  | some s => s ≠ ""
  | none => false

/-- JavaScript `String.prototype.trim`: strips whitespace from both ends.
Implemented structurally over the character list so that it computes. -/
def jsTrim (s : String) : String :=
  ⟨((s.data.dropWhile Char.isWhitespace).reverse.dropWhile Char.isWhitespace).reverse⟩

/-- `generateAccessAndRefreshTokens`, the body of its `try` block:
looks the user up selecting the refresh token, throws 404 if absent,
asks the token service for the two tokens (each call may throw an
arbitrary internal error), persists the new refresh token, and returns
both tokens with the updated store.  The token-service calls
`user.generateAccessToken()` / `user.generateRefreshToken()` are
collaborators and arrive as their results `genAccess`, `genRefresh`. -/
def generateTokensTry (db : DB) (genAccess genRefresh : Except String String)
    (userId : Nat) : Except JsError (String × String × DB) :=
  match findById db userId with
  | none => .error (.api ⟨404, "User not found"⟩)
  | some _ =>
    match genAccess with
    | .error m => .error (.raw m)
    | .ok accessToken =>
      match genRefresh with
      | .error m => .error (.raw m)
      | .ok refreshToken =>
        .ok (accessToken, refreshToken, setRefreshToken db userId (some refreshToken))

/-- `generateAccessAndRefreshTokens`: the `catch` wraps every failure of the
body as `ApiError(500, 'Error generating refresh & access tokens')`. -/
def generateAccessAndRefreshTokens (db : DB) (genAccess genRefresh : Except String String)
    (userId : Nat) : Except ApiError (String × String × DB) :=
  match generateTokensTry db genAccess genRefresh userId with
  | .ok r => .ok r
  | .error _ => .error ⟨500, "Error generating refresh & access tokens"⟩

/-- The successful response assembled by `refreshAccessToken`: HTTP status,
the two `res.cookie` values, and the `ApiResponse` JSON body.  The body and
cookie carry `newRefreshToken`, which the source destructures from an object
whose key is `refreshToken`, so its value is JavaScript `undefined`
(`Option.none` here). -/
structure RefreshOk where
  status : Nat
  cookieAccessToken : Option String
  cookieRefreshToken : Option String
  bodyStatusCode : Nat
  bodyAccessToken : String
  bodyRefreshToken : Option String
  bodyMessage : String
deriving Repr, DecidableEq

/-- The body of `refreshAccessToken`'s `try` block.  `verify` is the
collaborator `jwt.verify(token, REFRESH_TOKEN_SECRET)`: it either throws
(with some message) or yields the decoded subject id. -/
def refreshTry (db : DB) (verify : String → Except String Nat)
    (genAccess genRefresh : Except String String)
    (cookieToken bodyToken : Option String) :
    Except JsError RefreshOk × DB :=
  let incomingRefreshToken := jsOrStr cookieToken bodyToken
  match incomingRefreshToken with
  | none => (.error (.api ⟨401, "Unauthorized request"⟩), db)
  | some incoming =>
    if incoming = "" then (.error (.api ⟨401, "Unauthorized request"⟩), db)
    else
      match verify incoming with
      | .error m => (.error (.raw m), db)
      | .ok decodedId =>
        match findById db decodedId with
        | none => (.error (.api ⟨401, "Invalid refresh token"⟩), db)
        | some user =>
          if some incoming ≠ user.refreshToken then
            (.error (.api ⟨401, "Refresh token is expired or used"⟩), db)
          else
            match generateAccessAndRefreshTokens db genAccess genRefresh user.id with
            | .error e => (.error (.api e), db)
            | .ok generated =>
              -- The source destructures `{ accessToken, newRefreshToken }` from a
              -- callee returning `{ accessToken, refreshToken }`: the key
              -- `newRefreshToken` is absent, so its value is `undefined`.
              let accessToken := generated.1
              let newRefreshToken : Option String := none
              let db2 := generated.2.2
              (.ok { status := 200
                     cookieAccessToken := some accessToken
                     cookieRefreshToken := newRefreshToken
                     bodyStatusCode := 200
                     bodyAccessToken := accessToken
                     bodyRefreshToken := newRefreshToken
                     bodyMessage := "Access token refreshed" }, db2)

/-- `refreshAccessToken`: the `catch` block rethrows every failure as
`ApiError(401, error?.message || "Invalid refresh token")`. -/
def refreshAccessToken (db : DB) (verify : String → Except String Nat)
    (genAccess genRefresh : Except String String)
    (cookieToken bodyToken : Option String) :
    Except ApiError RefreshOk × DB :=
  match refreshTry db verify genAccess genRefresh cookieToken bodyToken with
  | (.ok r, db2) => (.ok r, db2)
  | (.error e, db2) =>
    (.error ⟨401, if e.message = "" then "Invalid refresh token" else e.message⟩, db2)

/-- A user document as serialized into a JSON response.  `password = none`
and `refreshToken = none` mean the field was excluded by the projection;
`refreshToken = some v` means the stored (still nullable) value `v` appears
in the serialized document. -/
structure UserView where
  id : Nat
  username : String
  email : String
  fullname : String
  avatar : String
  coverImage : String
  password : Option String
  refreshToken : Option (Option String)
deriving Repr, DecidableEq

/-- `.select("-password -refreshToken")` applied to a found document. -/
def selectSansPasswordRefresh (u : StoredUser) : UserView :=
  { id := u.id, username := u.username, email := u.email, fullname := u.fullname
    avatar := u.avatar, coverImage := u.coverImage
    password := none, refreshToken := none }

/-- `.select("-password")` applied to a found document: the stored refresh
token stays in the serialized document. -/
def selectSansPassword (u : StoredUser) : UserView :=
  { id := u.id, username := u.username, email := u.email, fullname := u.fullname
    avatar := u.avatar, coverImage := u.coverImage
    password := none, refreshToken := some u.refreshToken }

/-- Modelled from the spec: the user model (`src/models/user.model.js`),
which holds the bcrypt pre-save hashing hook, is not among the available
sources.  §4.2 of the spec: the password is one-way hashed before
persistence and never stored or returned in plaintext.  The derivation is
modelled as an injective tagging that never equals its input. -/
def hashPassword (plain : String) : String := "bcrypt$" ++ plain

/-- Modelled from the spec: `verifyPassword(user, plaintext)` of the
credential store (`user.isPasswordCorrect` in the absent user model)
compares the plaintext against the stored hash. -/
def isPasswordCorrect (u : StoredUser) (plain : String) : Bool :=
  u.password = hashPassword plain

/-- `User.findOne({ $or: [{ username }, { email }] })`: first document whose
username or email equals a supplied identifier (an absent identifier
matches nothing). -/
def findByUsernameOrEmail (db : DB) (username email : Option String) : Option StoredUser :=
  db.find? (fun u => username == some u.username || email == some u.email)

/-- The successful `loginUser` response: the two token cookies and the JSON
body carrying the sanitized user plus both tokens. -/
structure LoginOk where
  status : Nat
  cookieAccessToken : String
  cookieRefreshToken : String
  bodyStatusCode : Nat
  user : UserView
  accessToken : String
  refreshToken : String
  bodyMessage : String
deriving Repr, DecidableEq

/-- `loginUser`: identifier check, lookup, password check, token issuance
and persistence, sanitized read-back, cookies and body. -/
def loginUser (db : DB) (genAccess genRefresh : Except String String)
    (username email : Option String) (password : String) :
    Except JsError LoginOk × DB :=
  if !(jsTruthy username || jsTruthy email) then
    (.error (.api ⟨400, "username or email is required"⟩), db)
  else
    match findByUsernameOrEmail db username email with
    | none => (.error (.api ⟨404, "user doesn\x27t exist"⟩), db)
    | some user =>
      if !(isPasswordCorrect user password) then
        (.error (.api ⟨401, "Invalid user credentials"⟩), db)
      else
        match generateAccessAndRefreshTokens db genAccess genRefresh user.id with
        | .error e => (.error (.api e), db)
        | .ok generated =>
          let accessToken := generated.1
          let refreshToken := generated.2.1
          let db2 := generated.2.2
          match findById db2 user.id with
          | none =>
            -- `loggedInUser.toObject()` on a null lookup result would throw.
            (.error (.typeError "toObject of null"), db2)
          | some loggedInUser =>
            (.ok { status := 200
                   cookieAccessToken := accessToken
                   cookieRefreshToken := refreshToken
                   bodyStatusCode := 200
                   user := selectSansPasswordRefresh loggedInUser
                   accessToken := accessToken
                   refreshToken := refreshToken
                   bodyMessage := "User logged In successfully" }, db2)

/-- The `logoutUser` response: both cookies cleared and an empty body. -/
structure LogoutOk where
  status : Nat
  clearedAccessCookie : Bool
  clearedRefreshCookie : Bool
  bodyStatusCode : Nat
  bodyMessage : String
deriving Repr, DecidableEq

/-- `logoutUser`: `findByIdAndUpdate(req.user._id, { $set: { refreshToken:
undefined } })`, then clear both cookies.  Mongoose strips keys whose value
is `undefined` from update documents, so the `$set` is empty, the update is
a store no-op, and the stored refresh token survives logout; only the
cookies are cleared. -/
def logoutUser (db : DB) (userId : Nat) : LogoutOk × DB :=
  ({ status := 200, clearedAccessCookie := true, clearedRefreshCookie := true
     bodyStatusCode := 200, bodyMessage := "User logged out" }, db)

/-- Modelled from the spec: `updatePassword(userId, newPlaintext)` of the
credential store (§4.2) replaces the stored hash with the derivation of the
new plaintext, bypassing full-document validation.  The controller invokes
it as `user.updateOne({ password: newPassword }, { validateBeforeSave:
false })`; the hashing itself lives in the absent user model. -/
def updatePasswordStore (db : DB) (userId : Nat) (newPlain : String) : DB :=
  List.map (fun u => if u.id = userId then { u with password := hashPassword newPlain } else u) db

/-- A response carrying only a status and message (empty data object). -/
structure SimpleOk where
  status : Nat
  bodyStatusCode : Nat
  bodyMessage : String
deriving Repr, DecidableEq

/-- `changeCurrentUserPassword`: verify the old password against the stored
hash, then replace the stored credential; no token rotation. -/
def changeCurrentUserPassword (db : DB) (userId : Nat)
    (oldPassword newPassword : String) : Except JsError SimpleOk × DB :=
  match findById db userId with
  | none => (.error (.typeError "isPasswordCorrect of null"), db)
  | some user =>
    if !(isPasswordCorrect user oldPassword) then
      (.error (.api ⟨400, "Invalid old password"⟩), db)
    else
      (.ok { status := 200, bodyStatusCode := 200
             bodyMessage := "Password changed successfully" },
       updatePasswordStore db userId newPassword)

/-- A response whose data is a (possibly null) serialized user document. -/
structure UserOk where
  status : Nat
  bodyStatusCode : Nat
  user : Option UserView
  bodyMessage : String
deriving Repr, DecidableEq

/-- Modelled from the spec: the auth middleware that populates `req.user` is
not among the available sources; per §4.2 every read-back of a user for API
exposure excludes `passwordHash` and `refreshToken`. -/
def authMiddlewareUser (u : StoredUser) : UserView :=
  selectSansPasswordRefresh u

/-- `getCurrentUser`: returns `req.user` as supplied by the auth
middleware. -/
def getCurrentUser (reqUser : UserView) : UserOk :=
  { status := 200, bodyStatusCode := 200, user := some reqUser
    bodyMessage := "Current user fetched successfully" }

/-- `updateAccountDetails`: requires truthy `fullname` and `email`, updates
both fields, and returns the updated document selected with `-password`
only (the stored refresh token stays in the response). -/
def updateAccountDetails (db : DB) (userId : Nat)
    (fullname email : Option String) : Except ApiError UserOk × DB :=
  if !(jsTruthy fullname) || !(jsTruthy email) then
    (.error ⟨400, "All fields are required"⟩, db)
  else
    match fullname, email with
    | some f, some e =>
      let db2 := List.map
        (fun u => if u.id = userId then { u with fullname := f, email := e } else u) db
      ((match findById db2 userId with
        | none => .ok { status := 200, bodyStatusCode := 200, user := none
                        bodyMessage := "Account details updated successfully" }
        | some u => .ok { status := 200, bodyStatusCode := 200
                          user := some (selectSansPassword u)
                          bodyMessage := "Account details updated successfully" }), db2)
    | _, _ => (.error ⟨400, "All fields are required"⟩, db)

/-- The media host response object: `uploadOnCloudinary` yields either null
or an object with a `url`. -/
structure CloudAsset where
  url : String
deriving Repr, DecidableEq

/-- `updateUserAvatar`: requires a file path, uploads it, requires a truthy
`avatar.url` (reading `.url` on a null upload result throws), then updates
the avatar URL and returns the document selected with `-password` only. -/
def updateUserAvatar (db : DB) (userId : Nat) (filePath : Option String)
    (upload : Option String → Option CloudAsset) : Except JsError UserOk × DB :=
  if !(jsTruthy filePath) then
    (.error (.api ⟨400, "Avatar file is missing"⟩), db)
  else
    match upload filePath with
    | none => (.error (.typeError "url of null"), db)
    | some avatar =>
      if avatar.url = "" then
        (.error (.api ⟨400, "Error while uploading avatar"⟩), db)
      else
        let db2 := List.map
          (fun u => if u.id = userId then { u with avatar := avatar.url } else u) db
        ((match findById db2 userId with
          | none => .ok { status := 200, bodyStatusCode := 200, user := none
                          bodyMessage := "Avatar Image updated successfully" }
          | some u => .ok { status := 200, bodyStatusCode := 200
                            user := some (selectSansPassword u)
                            bodyMessage := "Avatar Image updated successfully" }), db2)

/-- One entry of `req.files.avatar` / `req.files.coverImage` as provided by
the upload middleware. -/
structure UploadedFile where
  path : String
deriving Repr, DecidableEq

/-- The `req.files` object of a registration request: each field is absent
when no file was posted under that name. -/
structure ReqFiles where
  avatar : Option (List UploadedFile)
  coverImage : Option (List UploadedFile)
deriving Repr, DecidableEq

/-- The object passed to `User.create` by `registerUser`: raw body fields
(possibly `undefined`), the lower-cased username, and the resolved media
URLs. -/
structure CreateCandidate where
  fullname : Option String
  email : Option String
  password : Option String
  username : String
  avatar : String
  coverImage : String
deriving Repr, DecidableEq

/-- Modelled from the spec: `create(candidate)` of the credential store
(§4.2) — the mongoose `User.create` backed by the absent user model —
persists the candidate with the password hashed before storage, and fails
with a store-level validation error when a required field is absent. -/
def storeCreate (db : DB) (freshId : Nat) (c : CreateCandidate) :
    Except JsError (StoredUser × DB) :=
  match c.fullname, c.email, c.password with
  | some f, some e, some p =>
    let u : StoredUser :=
      { id := freshId, username := c.username, email := e, fullname := f
        password := hashPassword p, refreshToken := none
        avatar := c.avatar, coverImage := c.coverImage }
    .ok (u, db ++ [u])
  | _, _, _ => .error (.raw "User validation failed")

/-- The outcome of a `registerUser` run together with a trace of the steps
the control flow reached, used to state ordering properties (no upload
before the uniqueness check, persistence reached with absent fields). -/
structure RegisterResult where
  outcome : Except JsError UserOk
  db : DB
  blankCheckFired : Bool
  lookupPerformed : Bool
  uploadCalls : List (Option String)
  reachedCreate : Bool
  createCall : Option CreateCandidate
deriving Repr

/-- The tail of `registerUser` from the avatar-presence check on: upload
the two paths, require a truthy upload result for the avatar, build the
candidate (`username.toLowerCase()` throws when `username` is absent),
create, and read back with `-password -refreshToken`. -/
def registerAfterPaths (db : DB) (freshId : Nat)
    (upload : Option String → Option CloudAsset)
    (fullname email username password : Option String)
    (avatarLocalPath coverImageLocalPath : Option String) : RegisterResult :=
  if !(jsTruthy avatarLocalPath) then
    { outcome := .error (.api ⟨400, "Avatar file is required"⟩), db := db
      blankCheckFired := false, lookupPerformed := true, uploadCalls := []
      reachedCreate := false, createCall := none }
  else
    let avatar := upload avatarLocalPath
    let coverImage := upload coverImageLocalPath
    let calls := [avatarLocalPath, coverImageLocalPath]
    match avatar with
    | none =>
      { outcome := .error (.api ⟨400, "Avatar file is required"⟩), db := db
        blankCheckFired := false, lookupPerformed := true, uploadCalls := calls
        reachedCreate := false, createCall := none }
    | some av =>
      match username with
      | none =>
        -- `username.toLowerCase()` inside the `User.create` argument object.
        { outcome := .error (.typeError "toLowerCase of undefined")
          db := db, blankCheckFired := false, lookupPerformed := true
          uploadCalls := calls, reachedCreate := true, createCall := none }
      | some un =>
        let cand : CreateCandidate :=
          { fullname := fullname, email := email, password := password
            username := un.toLower, avatar := av.url
            coverImage := match coverImage with
                          | some c => if c.url = "" then "" else c.url
                          | none => "" }
        let creation := storeCreate db freshId cand
        { outcome :=
            match creation with
            | .error e => .error e
            | .ok created =>
              match findById created.2 freshId with
              | none => .error (.api ⟨500, "Something went wrong while registering the user"⟩)
              | some createdUser =>
                .ok { status := 202, bodyStatusCode := 200
                      user := some (selectSansPasswordRefresh createdUser)
                      bodyMessage := "User registered successfully" }
          db :=
            match creation with
            | .error _ => db
            | .ok created => created.2
          blankCheckFired := false, lookupPerformed := true, uploadCalls := calls
          reachedCreate := true, createCall := some cand }

/-- `registerUser`: blank-field validation, uniqueness lookup, file-path
extraction (`req.files?.avatar[0]?.path` only guards `req.files`, so a
present `req.files` without an `avatar` entry throws a `TypeError`), the
two uploads, and creation followed by a sanitized read-back. -/
def registerUser (db : DB) (freshId : Nat)
    (upload : Option String → Option CloudAsset)
    (fullname email username password : Option String)
    (files : Option ReqFiles) : RegisterResult :=
  if [fullname, email, username, password].any
      (fun field => match field with | some s => jsTrim s = "" | none => false) then
    { outcome := .error (.api ⟨400, "All fields are required"⟩), db := db
      blankCheckFired := true, lookupPerformed := false, uploadCalls := []
      reachedCreate := false, createCall := none }
  else
    match findByUsernameOrEmail db username email with
    | some _ =>
      { outcome := .error (.api ⟨409, "User with email or username already exists"⟩)
        db := db, blankCheckFired := false, lookupPerformed := true
        uploadCalls := [], reachedCreate := false, createCall := none }
    | none =>
      match files with
      | some fs =>
        match fs.avatar with
        | none =>
          -- `req.files?.avatar[0]` with `req.files` defined but no `avatar`
          -- entry indexes `undefined` and throws.
          { outcome := .error (.typeError "reading 0 of undefined")
            db := db, blankCheckFired := false, lookupPerformed := true
            uploadCalls := [], reachedCreate := false, createCall := none }
        | some l =>
          registerAfterPaths db freshId upload fullname email username password
            ((l.head?).map (fun f => f.path))
            (match fs.coverImage with
             | some (c :: _) => some c.path
             | _ => none)
      | none =>
        registerAfterPaths db freshId upload fullname email username password
          none none

/-- `updateUserCoverImage`: same shape as the avatar update, for the cover
image URL. -/
def updateUserCoverImage (db : DB) (userId : Nat) (filePath : Option String)
    (upload : Option String → Option CloudAsset) : Except JsError UserOk × DB :=
  if !(jsTruthy filePath) then
    (.error (.api ⟨400, "Cover file is missing"⟩), db)
  else
    match upload filePath with
    | none => (.error (.typeError "url of null"), db)
    | some coverImage =>
      if coverImage.url = "" then
        (.error (.api ⟨400, "Error while uploading cover image"⟩), db)
      else
        let db2 := List.map
          (fun u => if u.id = userId then { u with coverImage := coverImage.url } else u) db
        ((match findById db2 userId with
          | none => .ok { status := 200, bodyStatusCode := 200, user := none
                          bodyMessage := "Cover Image updated successfully" }
          | some u => .ok { status := 200, bodyStatusCode := 200
                            user := some (selectSansPassword u)
                            bodyMessage := "Cover Image updated successfully" }), db2)

/-- A sample persisted user for concrete runs. -/
def adaUser : StoredUser :=
  { id := 1, username := "ada", email := "ada@x.com", fullname := "Ada"
    password := hashPassword "pw", refreshToken := some "rt1"
    avatar := "a.png", coverImage := "" }

/-- A sample token-service verifier accepting exactly the token `rt1` as
belonging to subject 1. -/
def adaVerify : String → Except String Nat :=
  fun t => if t = "rt1" then .ok 1 else .error "invalid signature"

/-- A sample media-host collaborator returning a URL for every path. -/
def sampleUpload : Option String → Option CloudAsset :=
  fun p => Option.map (fun s => { url := s ++ ".cdn" }) p

/-! ## Helper lemmas -/

theorem hashPassword_injective {a b : String} (h : hashPassword a = hashPassword b) :
    a = b := by
  unfold hashPassword at h
  have hd := congrArg String.data h
  rw [String.data_append, String.data_append] at hd
  exact String.ext (List.append_cancel_left hd)

theorem findById_map (f : StoredUser → StoredUser) (hid : ∀ v, (f v).id = v.id)
    (db : DB) (uid : Nat) :
    findById (db.map f) uid = (findById db uid).map f := by
  unfold findById
  have hp : ((fun u => decide (u.id = uid)) ∘ f) = (fun u : StoredUser => decide (u.id = uid)) := by
    funext v
    simp [Function.comp, hid v]
  rw [List.find?_map, hp]

theorem findByUsernameOrEmail_map (f : StoredUser → StoredUser)
    (hun : ∀ v, (f v).username = v.username) (hem : ∀ v, (f v).email = v.email)
    (db : DB) (username email : Option String) :
    findByUsernameOrEmail (db.map f) username email
      = (findByUsernameOrEmail db username email).map f := by
  unfold findByUsernameOrEmail
  have hp : ((fun u => username == some u.username || email == some u.email) ∘ f)
      = (fun u : StoredUser => username == some u.username || email == some u.email) := by
    funext v
    simp [Function.comp, hun v, hem v]
  rw [List.find?_map, hp]

theorem findById_setRefreshToken {db : DB} {uid : Nat} {u : StoredUser}
    (tok : Option String) (h : findById db uid = some u) :
    findById (setRefreshToken db uid tok) uid = some { u with refreshToken := tok } := by
  have hu : u.id = uid := by
    have := List.find?_some h
    exact of_decide_eq_true this
  unfold setRefreshToken
  rw [findById_map _ (fun v => by by_cases hv : v.id = uid <;> simp [hv]), h]
  simp [hu]

theorem findById_updatePasswordStore {db : DB} {uid : Nat} {u : StoredUser}
    (newPlain : String) (h : findById db uid = some u) :
    findById (updatePasswordStore db uid newPlain) uid
      = some { u with password := hashPassword newPlain } := by
  have hu : u.id = uid := by
    have := List.find?_some h
    exact of_decide_eq_true this
  unfold updatePasswordStore
  rw [findById_map _ (fun v => by by_cases hv : v.id = uid <;> simp [hv]), h]
  simp [hu]

theorem findByUsernameOrEmail_updatePasswordStore {db : DB} {uid : Nat} {u : StoredUser}
    (newPlain : String) (username email : Option String)
    (h : findByUsernameOrEmail db username email = some u) :
    findByUsernameOrEmail (updatePasswordStore db uid newPlain) username email
      = some (if u.id = uid then { u with password := hashPassword newPlain } else u) := by
  unfold updatePasswordStore
  rw [findByUsernameOrEmail_map _ (fun v => by by_cases hv : v.id = uid <;> simp [hv])
      (fun v => by by_cases hv : v.id = uid <;> simp [hv]), h]
  by_cases hu : u.id = uid <;> simp [hu]

/-! ## Claims -/

/-- C1: a `RefreshAccessToken` call whose incoming token verifies and
identifies an existing user but differs from the stored refresh token fails
with `AuthenticationError` (status 401, "Refresh token is expired or
used"), and the store — in particular the stored refresh token — is
unchanged: only the most recently issued refresh token is accepted. -/
theorem C1_refresh_reuse_rejected (db : DB) (verify : String → Except String Nat)
    (genAccess genRefresh : Except String String) (cookieToken bodyToken : Option String)
    (incoming : String) (uid : Nat) (u : StoredUser)
    (hinc : jsOrStr cookieToken bodyToken = some incoming) (hne : incoming ≠ "")
    (hver : verify incoming = .ok uid)
    (hfind : findById db uid = some u)
    (hmis : some incoming ≠ u.refreshToken) :
    refreshAccessToken db verify genAccess genRefresh cookieToken bodyToken
      = (.error ⟨401, "Refresh token is expired or used"⟩, db) := by
  have htry : refreshTry db verify genAccess genRefresh cookieToken bodyToken
      = (.error (.api ⟨401, "Refresh token is expired or used"⟩), db) := by
    unfold refreshTry
    rw [hinc]
    simp [hne, hver, hfind, hmis]
  unfold refreshAccessToken
  rw [htry]
  simp [JsError.message]

/-- Witness for C1 at a concrete input. -/
theorem C1_refresh_reuse_rejected_witness :
    refreshAccessToken [adaUser] (fun _ => .ok 1) (.ok "at2") (.ok "rt2") (some "old") none
      = (.error ⟨401, "Refresh token is expired or used"⟩, [adaUser]) :=
  C1_refresh_reuse_rejected [adaUser] (fun _ => .ok 1) (.ok "at2") (.ok "rt2")
    (some "old") none "old" 1 adaUser rfl (by decide) rfl rfl (by decide)

/-- C2: on the successful refresh path the new refresh token is persisted,
but the JSON body and cookie carry `undefined` instead of the new refresh
token — the source destructures `newRefreshToken` from an object whose key
is `refreshToken` — so the returned refresh token does not equal the
persisted one. -/
theorem C2_refresh_rotation_returns_undefined :
    (refreshAccessToken [adaUser] adaVerify (.ok "at2") (.ok "rt2") (some "rt1") none).2
        = [{ adaUser with refreshToken := some "rt2" }]
    ∧ ∃ r, (refreshAccessToken [adaUser] adaVerify (.ok "at2") (.ok "rt2") (some "rt1") none).1
          = .ok r
        ∧ r.bodyAccessToken = "at2"
        ∧ r.bodyRefreshToken = none
        ∧ r.cookieRefreshToken = none :=
  ⟨rfl, ⟨_, rfl, rfl, rfl, rfl⟩⟩

/-- C3 counterexample: with `old = new` (here both `"pw"`),
`ChangePassword(old, new)` succeeds, and the subsequent login using `old`
also succeeds instead of failing with `AuthenticationError`, refuting the
claim as stated for every pair of passwords. -/
theorem C3_counterexample_old_eq_new :
    (∃ r, (changeCurrentUserPassword [adaUser] 1 "pw" "pw").1 = .ok r)
    ∧ (∃ l, (loginUser (changeCurrentUserPassword [adaUser] 1 "pw" "pw").2
          (.ok "at") (.ok "rt") (some "ada") none "pw").1 = .ok l) :=
  ⟨⟨_, rfl⟩, ⟨_, rfl⟩⟩

/-- C3 (amended): for `old ≠ new`, a successful `ChangePassword(old, new)`
replaces the stored credential with the hash derivation of `new`; a
subsequent login using `new` succeeds and a subsequent login using `old`
fails with `AuthenticationError` (401). -/
theorem C3_change_password_roundtrip (db : DB) (uid : Nat) (u : StoredUser)
    (old new accessTok refreshTok : String)
    (hfind : findById db uid = some u)
    (hlogin : findByUsernameOrEmail db (some u.username) none = some u)
    (husern : u.username ≠ "")
    (hold : isPasswordCorrect u old = true)
    (hne : old ≠ new) :
    ∃ l db3,
      changeCurrentUserPassword db uid old new
        = (.ok { status := 200, bodyStatusCode := 200
                 bodyMessage := "Password changed successfully" },
           updatePasswordStore db uid new)
      ∧ findById (updatePasswordStore db uid new) uid
          = some { u with password := hashPassword new }
      ∧ loginUser (updatePasswordStore db uid new) (.ok accessTok) (.ok refreshTok)
          (some u.username) none new = (.ok l, db3)
      ∧ loginUser (updatePasswordStore db uid new) (.ok accessTok) (.ok refreshTok)
          (some u.username) none old
          = (.error (.api ⟨401, "Invalid user credentials"⟩), updatePasswordStore db uid new) := by
  have hu : u.id = uid := by
    have h' := hfind
    unfold findById at h'
    have hdec := List.find?_some h'
    exact of_decide_eq_true hdec
  have hchg : changeCurrentUserPassword db uid old new
      = (.ok { status := 200, bodyStatusCode := 200
               bodyMessage := "Password changed successfully" },
         updatePasswordStore db uid new) := by
    unfold changeCurrentUserPassword
    rw [hfind]
    simp [hold]
  have hfind2 : findById (updatePasswordStore db uid new) uid
      = some { u with password := hashPassword new } :=
    findById_updatePasswordStore new hfind
  have hlogin2 : findByUsernameOrEmail (updatePasswordStore db uid new) (some u.username) none
      = some { u with password := hashPassword new } := by
    rw [findByUsernameOrEmail_updatePasswordStore new (some u.username) none hlogin,
      if_pos hu]
  have hgen : generateAccessAndRefreshTokens (updatePasswordStore db uid new)
      (.ok accessTok) (.ok refreshTok) uid
      = .ok (accessTok, refreshTok,
          setRefreshToken (updatePasswordStore db uid new) uid (some refreshTok)) := by
    unfold generateAccessAndRefreshTokens generateTokensTry
    rw [hfind2]
  have hfind3 : findById
      (setRefreshToken (updatePasswordStore db uid new) uid (some refreshTok)) uid
      = some { u with password := hashPassword new, refreshToken := some refreshTok } :=
    findById_setRefreshToken (some refreshTok) hfind2
  refine ⟨{ status := 200, cookieAccessToken := accessTok, cookieRefreshToken := refreshTok
            bodyStatusCode := 200
            user := selectSansPasswordRefresh
              { u with password := hashPassword new, refreshToken := some refreshTok }
            accessToken := accessTok, refreshToken := refreshTok
            bodyMessage := "User logged In successfully" },
          setRefreshToken (updatePasswordStore db uid new) uid (some refreshTok),
          hchg, hfind2, ?_, ?_⟩
  · unfold loginUser
    simp only [jsTruthy, hlogin2]
    rw [if_neg (by simp [husern])]
    rw [if_neg (by simp [isPasswordCorrect])]
    simp only [hu, hgen, hfind3]
  · unfold loginUser
    simp only [jsTruthy, hlogin2]
    rw [if_neg (by simp [husern])]
    have hpw : isPasswordCorrect { u with password := hashPassword new } old = false := by
      simp only [isPasswordCorrect]
      simp only [decide_eq_false_iff_not]
      intro hh
      exact hne (hashPassword_injective hh).symm
    rw [hpw]
    simp

/-- Witness for C3 (amended) at a concrete input. -/
theorem C3_change_password_roundtrip_witness :
    ∃ l db3,
      changeCurrentUserPassword [adaUser] 1 "pw" "pw9"
        = (.ok { status := 200, bodyStatusCode := 200
                 bodyMessage := "Password changed successfully" },
           updatePasswordStore [adaUser] 1 "pw9")
      ∧ findById (updatePasswordStore [adaUser] 1 "pw9") 1
          = some { adaUser with password := hashPassword "pw9" }
      ∧ loginUser (updatePasswordStore [adaUser] 1 "pw9") (.ok "at") (.ok "rt")
          (some adaUser.username) none "pw9" = (.ok l, db3)
      ∧ loginUser (updatePasswordStore [adaUser] 1 "pw9") (.ok "at") (.ok "rt")
          (some adaUser.username) none "pw"
          = (.error (.api ⟨401, "Invalid user credentials"⟩), updatePasswordStore [adaUser] 1 "pw9") :=
  C3_change_password_roundtrip [adaUser] 1 adaUser "pw" "pw9" "at" "rt"
    rfl rfl (by decide) (by decide) (by decide)

/-- C4 counterexample: `updateAccountDetails` selects only `-password`, so
its JSON response contains the user's stored `refreshToken` — here the
stored value `"rt1"` appears in the serialized user. -/
theorem C4_counterexample_update_details_leaks_refresh_token :
    ∃ r v, (updateAccountDetails [adaUser] 1 (some "Ada L") (some "ada@x.com")).1 = .ok r
      ∧ r.user = some v
      ∧ adaUser.refreshToken = some "rt1"
      ∧ v.refreshToken = some (some "rt1") :=
  ⟨_, _, rfl, rfl, rfl, rfl⟩

/-- C4 (amended): serialized users never contain the password; Register,
Login and GetCurrentUser responses also exclude the stored refresh token;
but UpdateAccountDetails, UpdateUserAvatar and UpdateUserCoverImage select
only `-password`, so their responses carry the stored `refreshToken` field
of the persisted record. -/
theorem C4_amended_response_sanitization :
    (∀ db freshId upload fullname email username password files r v,
        (registerUser db freshId upload fullname email username password files).outcome
            = .ok r →
        r.user = some v → v.password = none ∧ v.refreshToken = none)
    ∧ (∀ db genAccess genRefresh username email password l db2,
        loginUser db genAccess genRefresh username email password = (.ok l, db2) →
        l.user.password = none ∧ l.user.refreshToken = none)
    ∧ (∀ u, (getCurrentUser (authMiddlewareUser u)).user = some (authMiddlewareUser u)
        ∧ (authMiddlewareUser u).password = none
        ∧ (authMiddlewareUser u).refreshToken = none)
    ∧ (∀ db uid fullname email r v db2,
        updateAccountDetails db uid fullname email = (.ok r, db2) →
        r.user = some v →
        v.password = none
          ∧ ∃ w, findById db2 uid = some w ∧ v.refreshToken = some w.refreshToken)
    ∧ (∀ db uid filePath upload r v db2,
        updateUserAvatar db uid filePath upload = (.ok r, db2) →
        r.user = some v →
        v.password = none
          ∧ ∃ w, findById db2 uid = some w ∧ v.refreshToken = some w.refreshToken)
    ∧ (∀ db uid filePath upload r v db2,
        updateUserCoverImage db uid filePath upload = (.ok r, db2) →
        r.user = some v →
        v.password = none
          ∧ ∃ w, findById db2 uid = some w ∧ v.refreshToken = some w.refreshToken) := by
  refine ⟨?_, ?_, ?_, ?_, ?_, ?_⟩
  · intro db freshId upload fullname email username password files r v hok huser
    unfold registerUser registerAfterPaths at hok
    repeat' split at hok
    all_goals try simp_all [selectSansPasswordRefresh]
    all_goals (repeat' split at hok)
    all_goals try simp_all [selectSansPasswordRefresh]
    all_goals
      (subst hok
       simp at huser
       subst huser
       exact ⟨rfl, rfl⟩)
  · intro db genAccess genRefresh username email password l db2 hok
    unfold loginUser at hok
    repeat' split at hok
    all_goals try simp_all [selectSansPasswordRefresh]
    all_goals (repeat' split at hok)
    all_goals try simp_all [selectSansPasswordRefresh]
    all_goals
      (obtain ⟨h1, h2⟩ := hok
       subst h1
       subst h2
       exact ⟨rfl, rfl⟩)
  · intro u
    exact ⟨rfl, rfl, rfl⟩
  · intro db uid fullname email r v db2 hok huser
    unfold updateAccountDetails at hok
    repeat' split at hok
    all_goals try simp_all [selectSansPassword]
    all_goals (repeat' split at hok)
    all_goals try simp_all [selectSansPassword]
    all_goals
      (obtain ⟨h1, h2⟩ := hok
       subst h1
       subst h2
       simp at huser
       try subst huser
       try exact ⟨rfl, _, by assumption, rfl⟩
       try exact ⟨rfl, rfl⟩)
  · intro db uid filePath upload r v db2 hok huser
    unfold updateUserAvatar at hok
    repeat' split at hok
    all_goals try simp_all [selectSansPassword]
    all_goals (repeat' split at hok)
    all_goals try simp_all [selectSansPassword]
    all_goals
      (obtain ⟨h1, h2⟩ := hok
       subst h1
       subst h2
       simp at huser
       try subst huser
       try exact ⟨rfl, _, by assumption, rfl⟩
       try exact ⟨rfl, rfl⟩)
  · intro db uid filePath upload r v db2 hok huser
    unfold updateUserCoverImage at hok
    repeat' split at hok
    all_goals try simp_all [selectSansPassword]
    all_goals (repeat' split at hok)
    all_goals try simp_all [selectSansPassword]
    all_goals
      (obtain ⟨h1, h2⟩ := hok
       subst h1
       subst h2
       simp at huser
       try subst huser
       try exact ⟨rfl, _, by assumption, rfl⟩
       try exact ⟨rfl, rfl⟩)

/-- Witness for C4 (amended) at a concrete input. -/
theorem C4_amended_response_sanitization_witness :
    ∃ r v, (updateAccountDetails [adaUser] 1 (some "Ada L") (some "ada@x.com")).1 = .ok r
      ∧ r.user = some v ∧ v.password = none
      ∧ ∃ w, findById (updateAccountDetails [adaUser] 1 (some "Ada L") (some "ada@x.com")).2 1
          = some w ∧ v.refreshToken = some w.refreshToken := by
  have h := C4_amended_response_sanitization.2.2.2.1 [adaUser] 1 (some "Ada L")
    (some "ada@x.com") _ _ _ (by rfl) rfl
  exact ⟨_, _, rfl, rfl, h.1, h.2⟩

/-- C5: the logout update `$set: { refreshToken: undefined }` is stripped
by the store driver (undefined-valued keys are removed from update
documents), so the stored refresh token survives logout: here user 1 still
holds refresh token `"rt1"` after logging out.  Both cookies are cleared
and a repeated call does not error and returns the identical response, but
the stored token is never set to absent as the claim requires. -/
theorem C5_logout_leaves_stored_token :
    logoutUser [adaUser] 1
      = ({ status := 200, clearedAccessCookie := true, clearedRefreshCookie := true
           bodyStatusCode := 200, bodyMessage := "User logged out" }, [adaUser])
    ∧ findById (logoutUser [adaUser] 1).2 1 = some adaUser
    ∧ adaUser.refreshToken = some "rt1"
    ∧ logoutUser (logoutUser [adaUser] 1).2 1 = logoutUser [adaUser] 1 :=
  ⟨rfl, rfl, rfl, rfl⟩

/-- C6 counterexample: a signature failure and an expiry failure of the
token verifier surface with different messages — the underlying verifier
message, not a shared generic "invalid refresh token" one — so the caller
can distinguish the causes. -/
theorem C6_counterexample_distinct_messages :
    (refreshAccessToken [adaUser] (fun _ => .error "invalid signature")
        (.ok "at") (.ok "rt") (some "rt1") none).1
        = .error ⟨401, "invalid signature"⟩
    ∧ (refreshAccessToken [adaUser] (fun _ => .error "jwt expired")
        (.ok "at") (.ok "rt") (some "rt1") none).1
        = .error ⟨401, "jwt expired"⟩
    ∧ ("invalid signature" : String) ≠ "jwt expired"
    ∧ ("invalid signature" : String) ≠ "Invalid refresh token"
    ∧ ("jwt expired" : String) ≠ "Invalid refresh token" :=
  ⟨rfl, rfl, by decide, by decide, by decide⟩

/-- C6 (amended): every verification failure is rethrown as a status-401
`AuthenticationError`, but its message is the underlying verifier error
message; the generic "Invalid refresh token" appears only when that message
is empty, so signature and expiry failures remain distinguishable. -/
theorem C6_amended_verify_failure_message (db : DB) (verify : String → Except String Nat)
    (genAccess genRefresh : Except String String) (cookieToken bodyToken : Option String)
    (incoming m : String)
    (hinc : jsOrStr cookieToken bodyToken = some incoming) (hne : incoming ≠ "")
    (hver : verify incoming = .error m) :
    refreshAccessToken db verify genAccess genRefresh cookieToken bodyToken
      = (.error ⟨401, if m = "" then "Invalid refresh token" else m⟩, db) := by
  have htry : refreshTry db verify genAccess genRefresh cookieToken bodyToken
      = (.error (.raw m), db) := by
    unfold refreshTry
    rw [hinc]
    simp [hne, hver]
  unfold refreshAccessToken
  rw [htry]
  rfl

/-- Witness for C6 (amended) at a concrete input. -/
theorem C6_amended_witness :
    refreshAccessToken [adaUser] (fun _ => .error "jwt expired")
        (.ok "at") (.ok "rt") (some "rt1") none
      = (.error ⟨401, "jwt expired"⟩, [adaUser]) := by
  simpa using C6_amended_verify_failure_message [adaUser] (fun _ => .error "jwt expired")
    (.ok "at") (.ok "rt") (some "rt1") none "rt1" "jwt expired" rfl (by decide) rfl

/-- C7 counterexample: an internal token-generation failure during
`RefreshAccessToken` is surfaced with status 401 — the endpoint's catch-all
re-wraps the 500 `TokenGenerationError` — not with status 500 as the claim
states for every token-issuing operation. -/
theorem C7_counterexample_refresh_internal_failure_as_401 :
    (refreshAccessToken [adaUser] adaVerify (.error "ECONNRESET") (.ok "rt2")
        (some "rt1") none).1
        = .error ⟨401, "Error generating refresh & access tokens"⟩
    ∧ (401 : Nat) ≠ 500 :=
  ⟨rfl, by decide⟩

/-- C7 (amended): an unexpected internal failure during token generation is
wrapped as the generic 500 `TokenGenerationError` and surfaces with that
status from `Login`; from `RefreshAccessToken` the wrapped error is caught
again by the endpoint's catch-all and surfaces as a 401
`AuthenticationError` carrying the same generic message — in both cases the
raw internal failure message is never exposed. -/
theorem C7_amended_token_generation_failures :
    (∀ db genAccess genRefresh username email password u er,
        (jsTruthy username || jsTruthy email) = true →
        findByUsernameOrEmail db username email = some u →
        isPasswordCorrect u password = true →
        generateTokensTry db genAccess genRefresh u.id = .error er →
        loginUser db genAccess genRefresh username email password
          = (.error (.api ⟨500, "Error generating refresh & access tokens"⟩), db))
    ∧ (∀ db verify genAccess genRefresh cookieToken bodyToken incoming uid u er,
        jsOrStr cookieToken bodyToken = some incoming → incoming ≠ "" →
        verify incoming = .ok uid → findById db uid = some u →
        some incoming = u.refreshToken →
        generateTokensTry db genAccess genRefresh u.id = .error er →
        refreshAccessToken db verify genAccess genRefresh cookieToken bodyToken
          = (.error ⟨401, "Error generating refresh & access tokens"⟩, db)) := by
  constructor
  · intro db genAccess genRefresh username email password u er htru hfind hpw hgen
    have hwrap : generateAccessAndRefreshTokens db genAccess genRefresh u.id
        = .error ⟨500, "Error generating refresh & access tokens"⟩ := by
      unfold generateAccessAndRefreshTokens
      rw [hgen]
    unfold loginUser
    rw [hfind]
    simp [htru, hpw, hwrap]
  · intro db verify genAccess genRefresh cookieToken bodyToken incoming uid u er
      hinc hne hver hfind hmatch hgen
    have hwrap : generateAccessAndRefreshTokens db genAccess genRefresh u.id
        = .error ⟨500, "Error generating refresh & access tokens"⟩ := by
      unfold generateAccessAndRefreshTokens
      rw [hgen]
    have htry : refreshTry db verify genAccess genRefresh cookieToken bodyToken
        = (.error (.api ⟨500, "Error generating refresh & access tokens"⟩), db) := by
      unfold refreshTry
      rw [hinc]
      simp [hne, hver, hfind, hmatch.symm, hwrap]
    unfold refreshAccessToken
    rw [htry]
    simp [JsError.message]

/-- Witness for C7 (amended) at a concrete input. -/
theorem C7_amended_witness :
    refreshAccessToken [adaUser] adaVerify (.error "ECONNRESET") (.ok "rt2")
        (some "rt1") none
      = (.error ⟨401, "Error generating refresh & access tokens"⟩, [adaUser]) :=
  C7_amended_token_generation_failures.2 [adaUser] adaVerify (.error "ECONNRESET")
    (.ok "rt2") (some "rt1") none "rt1" 1 adaUser (.raw "ECONNRESET")
    rfl (by decide) rfl rfl rfl rfl

/-- C8: a registration whose username or email matches an existing user
(and whose supplied text fields pass the blank check) fails with
`ConflictError` (409), persists nothing (the store is unchanged), and
attempts no media upload: the uniqueness check runs before upload and
creation. -/
theorem C8_register_conflict (db : DB) (freshId : Nat)
    (upload : Option String → Option CloudAsset)
    (fullname email username password : Option String) (files : Option ReqFiles)
    (w : StoredUser)
    (hblank : ([fullname, email, username, password].any
        (fun field => match field with | some s => jsTrim s = "" | none => false)) = false)
    (hexist : findByUsernameOrEmail db username email = some w) :
    registerUser db freshId upload fullname email username password files
      = { outcome := .error (.api ⟨409, "User with email or username already exists"⟩)
          db := db, blankCheckFired := false, lookupPerformed := true
          uploadCalls := [], reachedCreate := false, createCall := none } := by
  unfold registerUser
  rw [if_neg (by simp [hblank])]
  rw [hexist]

/-- Witness for C8 at a concrete input. -/
theorem C8_register_conflict_witness :
    registerUser [adaUser] 2 sampleUpload (some "Ada") (some "other@x.com") (some "ada")
        (some "pw2") none
      = { outcome := .error (.api ⟨409, "User with email or username already exists"⟩)
          db := [adaUser], blankCheckFired := false, lookupPerformed := true
          uploadCalls := [], reachedCreate := false, createCall := none } :=
  C8_register_conflict [adaUser] 2 sampleUpload (some "Ada") (some "other@x.com")
    (some "ada") (some "pw2") none adaUser (by decide) rfl

/-- C9: when `req.files` is present but carries no `avatar` entry (here only
a cover image was posted), registration crashes with an unclassified
`TypeError` — `req.files?.avatar[0]` indexes `undefined` — instead of the
`ValidationError` the claim requires; the 400 error is produced only when
`req.files` is absent altogether, and the no-URL upload failure also yields
the 400 error. -/
theorem C9_register_missing_avatar_entry_type_error :
    (registerUser [adaUser] 2 sampleUpload (some "Bob") (some "b@x.com") (some "Bob")
        (some "pw2")
        (some { avatar := none, coverImage := some [{ path := "c.png" }] })).outcome
      = .error (.typeError "reading 0 of undefined")
    ∧ (registerUser [adaUser] 2 sampleUpload (some "Bob") (some "b@x.com") (some "Bob")
        (some "pw2") none).outcome
      = .error (.api ⟨400, "Avatar file is required"⟩)
    ∧ (registerUser [adaUser] 2 (fun _ => none) (some "Bob") (some "b@x.com") (some "Bob")
        (some "pw2")
        (some { avatar := some [{ path := "av.png" }], coverImage := none })).outcome
      = .error (.api ⟨400, "Avatar file is required"⟩) :=
  ⟨rfl, rfl, rfl⟩

/-- C10: a required text field that is entirely absent from the request
body bypasses the blank-field validation (`field?.trim() === ""` is false
for `undefined`): the flow proceeds to the uniqueness lookup and on to the
persistence attempt, with the missing field still `undefined` in the
`User.create` candidate; when the absent field is the username, the
persistence attempt itself throws from `username.toLowerCase()`. -/
theorem C10_absent_fields_bypass_blank_check (db : DB) (freshId : Nat)
    (upload : Option String → Option CloudAsset)
    (fullname email username password : Option String)
    (f0 : UploadedFile) (l : List UploadedFile) (cover : Option (List UploadedFile))
    (asset : CloudAsset)
    (habsent : fullname = none ∨ email = none ∨ username = none ∨ password = none)
    (hfn : ∀ s, fullname = some s → ¬ jsTrim s = "")
    (hem : ∀ s, email = some s → ¬ jsTrim s = "")
    (hun : ∀ s, username = some s → ¬ jsTrim s = "")
    (hpw : ∀ s, password = some s → ¬ jsTrim s = "")
    (hnoexist : findByUsernameOrEmail db username email = none)
    (hpath : f0.path ≠ "")
    (hupload : upload (some f0.path) = some asset) :
    (registerUser db freshId upload fullname email username password
        (some { avatar := some (f0 :: l), coverImage := cover })).blankCheckFired = false
    ∧ (registerUser db freshId upload fullname email username password
        (some { avatar := some (f0 :: l), coverImage := cover })).lookupPerformed = true
    ∧ (registerUser db freshId upload fullname email username password
        (some { avatar := some (f0 :: l), coverImage := cover })).reachedCreate = true
    ∧ (username = none →
        (registerUser db freshId upload fullname email username password
          (some { avatar := some (f0 :: l), coverImage := cover })).outcome
            = .error (.typeError "toLowerCase of undefined"))
    ∧ (∀ un, username = some un →
        ∃ c, (registerUser db freshId upload fullname email username password
            (some { avatar := some (f0 :: l), coverImage := cover })).createCall = some c
          ∧ c.fullname = fullname ∧ c.email = email ∧ c.password = password) := by
  have hblank : ([fullname, email, username, password].any
      (fun field => match field with | some s => jsTrim s = "" | none => false)) = false := by
    simp only [List.any_cons, List.any_nil, Bool.or_false, Bool.or_eq_false_iff]
    refine ⟨?_, ?_, ?_, ?_⟩
    · cases fullname with
      | none => rfl
      | some s => simpa using hfn s rfl
    · cases email with
      | none => rfl
      | some s => simpa using hem s rfl
    · cases username with
      | none => rfl
      | some s => simpa using hun s rfl
    · cases password with
      | none => rfl
      | some s => simpa using hpw s rfl
  have hred : registerUser db freshId upload fullname email username password
      (some { avatar := some (f0 :: l), coverImage := cover })
      = registerAfterPaths db freshId upload fullname email username password
          (some f0.path)
          (match cover with | some (c :: _) => some c.path | _ => none) := by
    unfold registerUser
    rw [if_neg (by simp [hblank])]
    rw [hnoexist]
    rfl
  rw [hred]
  unfold registerAfterPaths
  rw [if_neg (by simp [jsTruthy, hpath])]
  simp only [hupload]
  cases username with
  | none =>
    exact ⟨rfl, rfl, rfl, fun _ => rfl, fun un h => Option.noConfusion h⟩
  | some un =>
    exact ⟨rfl, rfl, rfl, fun h => Option.noConfusion h,
      fun un2 h => by injection h with hh; subst hh; exact ⟨_, rfl, rfl, rfl, rfl⟩⟩

/-- Witness for C10 at a concrete input: the password field is absent,
every other field is present and non-blank. -/
theorem C10_absent_fields_witness :
    (registerUser [] 2 sampleUpload (some "Bob") (some "b@x.com") (some "Bob") none
        (some { avatar := some [{ path := "av.png" }], coverImage := none })).blankCheckFired
        = false
    ∧ (registerUser [] 2 sampleUpload (some "Bob") (some "b@x.com") (some "Bob") none
        (some { avatar := some [{ path := "av.png" }], coverImage := none })).lookupPerformed
        = true
    ∧ (registerUser [] 2 sampleUpload (some "Bob") (some "b@x.com") (some "Bob") none
        (some { avatar := some [{ path := "av.png" }], coverImage := none })).reachedCreate
        = true
    ∧ ((some "Bob" : Option String) = none →
        (registerUser [] 2 sampleUpload (some "Bob") (some "b@x.com") (some "Bob") none
          (some { avatar := some [{ path := "av.png" }], coverImage := none })).outcome
            = .error (.typeError "toLowerCase of undefined"))
    ∧ (∀ un, (some "Bob" : Option String) = some un →
        ∃ c, (registerUser [] 2 sampleUpload (some "Bob") (some "b@x.com") (some "Bob") none
            (some { avatar := some [{ path := "av.png" }], coverImage := none })).createCall
              = some c
          ∧ c.fullname = some "Bob" ∧ c.email = some "b@x.com" ∧ c.password = none) :=
  C10_absent_fields_bypass_blank_check [] 2 sampleUpload (some "Bob") (some "b@x.com")
    (some "Bob") none { path := "av.png" } [] none { url := "av.png.cdn" }
    (Or.inr (Or.inr (Or.inr rfl)))
    (fun s h => by injection h with hh; subst hh; decide)
    (fun s h => by injection h with hh; subst hh; decide)
    (fun s h => by injection h with hh; subst hh; decide)
    (fun s h => Option.noConfusion h)
    rfl (by decide) rfl

end YTB
